import Mathlib

/-!
Shallow embedding of the analytics core of `app/monitor.py` (WarSoul_Monitor):
trend analysis, price-position analysis, investment advice, and the cross-entity
ranking. Prices are modelled as rationals; Python strings are modelled as Lean
strings, and the Python substring operator `in` as an explicit character-list
infix check.
-/

namespace WarSoul

/-- Python `pat in s` (substring containment), on character lists:
prefix test. -/
def charsStartWith : List Char → List Char → Bool
  | [], _ => true
  | _ :: _, [] => false
  | a :: as, b :: bs => a == b && charsStartWith as bs

/-- Python `pat in s` (substring containment), on character lists:
occurrence at any position. -/
def charsContain (pat : List Char) : List Char → Bool
  | [] => charsStartWith pat []
  | c :: rest => charsStartWith pat (c :: rest) || charsContain pat rest

/-- Python `pat in s` for strings. -/
def containsSub (pat s : String) : Bool := charsContain pat.data s.data

/-- Python `max(xs)` on a price list (0 on the empty list, which the source
never passes to `max`). -/
def listMax : List ℚ → ℚ
  | [] => 0
  | x :: xs => xs.foldl max x

/-- Python `min(xs)` on a price list (0 on the empty list, which the source
never passes to `min`). -/
def listMin : List ℚ → ℚ
  | [] => 0
  | x :: xs => xs.foldl min x

/-- Result dictionary of `calculate_trend_analysis`. -/
structure TrendResult where
  short_trend : String
  mid_trend : String
  trend_strength : ℚ
  trend_description : String
  short_slope : ℚ
  mid_slope : ℚ
  prices : List ℚ
deriving DecidableEq

/-- `short_trend_slope` of `calculate_trend_analysis`:
`recent_3 = prices[-3:]`, slope `(recent_3[-1] - recent_3[0]) / 2`
when the window has exactly 3 points, else 0. -/
def shortSlope (prices : List ℚ) : ℚ :=
  let recent_3 := prices.drop (prices.length - 3)
  if recent_3.length = 3 then (recent_3.getLastD 0 - recent_3.headD 0) / 2 else 0

/-- `mid_trend_slope` of `calculate_trend_analysis`:
window of the last `min(7, n)` points, slope `(last - first) / (len - 1)`
when the window has at least 2 points, else 0. -/
def midSlope (prices : List ℚ) : ℚ :=
  let mid_window := min 7 prices.length
  let recent_mid := prices.drop (prices.length - mid_window)
  if 2 ≤ recent_mid.length then
    (recent_mid.getLastD 0 - recent_mid.headD 0) / ((recent_mid.length : ℚ) - 1)
  else 0

/-- `short_strength` of `calculate_trend_analysis`:
`|slope| / price_range * 100` when the range is positive, else 0. -/
def shortStrength (prices : List ℚ) : ℚ :=
  if listMax prices - listMin prices > 0 then
    |shortSlope prices| / (listMax prices - listMin prices) * 100
  else 0

/-- `mid_strength` of `calculate_trend_analysis`:
`|slope| / price_range * 100` when the range is positive, else 0. -/
def midStrength (prices : List ℚ) : ℚ :=
  if listMax prices - listMin prices > 0 then
    |midSlope prices| / (listMax prices - listMin prices) * 100
  else 0

/-- `get_trend_direction` of `calculate_trend_analysis`. -/
def get_trend_direction (slope strength : ℚ) : String :=
  if strength < 0.5 then "横盘"
  else if slope > 0 ∧ strength > 2 then "强势上升"
  else if slope > 0 then "温和上升"
  else if slope < 0 ∧ strength > 2 then "强势下降"
  else "温和下降"

/-- `calculate_trend_analysis` of `app/monitor.py`. -/
def calculate_trend_analysis (prices : List ℚ) : TrendResult :=
  if prices.length < 3 then
    { short_trend := "数据不足", mid_trend := "数据不足", trend_strength := 0,
      trend_description := "数据不足", short_slope := 0, mid_slope := 0,
      prices := prices }
  else
    let short_trend_slope := shortSlope prices
    let mid_trend_slope := midSlope prices
    let short_strength := shortStrength prices
    let mid_strength := midStrength prices
    let short_direction := get_trend_direction short_trend_slope short_strength
    let mid_direction := get_trend_direction mid_trend_slope mid_strength
    let trend_desc :=
      if short_direction = mid_direction then mid_direction ++ "，趋势稳定"
      else if containsSub "上升" mid_direction && containsSub "上升" short_direction then
        if short_strength > mid_strength then mid_direction ++ "，短期加速"
        else mid_direction ++ "，短期减速"
      else if containsSub "下降" mid_direction && containsSub "下降" short_direction then
        if short_strength > mid_strength then mid_direction ++ "，短期加速"
        else mid_direction ++ "，短期减速"
      else if (containsSub "上升" mid_direction && containsSub "下降" short_direction) ||
          (containsSub "下降" mid_direction && containsSub "上升" short_direction) then
        mid_direction ++ "，短期反转"
      else "中期" ++ mid_direction ++ "，短期" ++ short_direction
    { short_trend := short_direction, mid_trend := mid_direction,
      trend_strength := (short_strength + mid_strength) / 2,
      trend_description := trend_desc, short_slope := short_trend_slope,
      mid_slope := mid_trend_slope, prices := prices }

/-- Result dictionary of `calculate_price_analysis`. -/
structure PositionResult where
  avg : ℚ
  min : ℚ
  max : ℚ
  from_min_points : ℚ
  from_min_percent : ℚ
  from_max_points : ℚ
  from_max_percent : ℚ
  percentile : ℚ
  sample_size : Nat
deriving DecidableEq

/-- `calculate_price_analysis` of `app/monitor.py`. -/
def calculate_price_analysis (current_price : ℚ) (historical_prices : List ℚ) :
    PositionResult :=
  if historical_prices = [] then
    { avg := current_price, min := current_price, max := current_price,
      from_min_points := 0, from_min_percent := 0,
      from_max_points := 0, from_max_percent := 0,
      percentile := 50, sample_size := 0 }
  else
    let all_prices := historical_prices ++ [current_price]
    let avg_price := all_prices.sum / (all_prices.length : ℚ)
    let min_price := listMin all_prices
    let max_price := listMax all_prices
    let from_min_points := current_price - min_price
    let from_max_points := current_price - max_price
    let price_range := max_price - min_price
    let from_min_percent := if price_range > 0 then from_min_points / price_range * 100 else 0
    let from_max_percent := if price_range > 0 then from_max_points / price_range * 100 else 0
    let lower_count := all_prices.countP (fun p => decide (p < current_price))
    let percentile := ((lower_count : ℚ) / (all_prices.length : ℚ)) * 100
    { avg := avg_price, min := min_price, max := max_price,
      from_min_points := from_min_points, from_min_percent := from_min_percent,
      from_max_points := from_max_points, from_max_percent := from_max_percent,
      percentile := percentile, sample_size := historical_prices.length }

/-- The direction code assigned by `calculate_investment_advice` from the
`mid_trend` label, by Python substring tests. -/
def trendDirection (mid_trend : String) : ℤ :=
  if containsSub "强势上升" mid_trend then 2
  else if containsSub "温和上升" mid_trend then 1
  else if containsSub "横盘" mid_trend then 0
  else if containsSub "温和下降" mid_trend then -1
  else -2

/-- `is_reversing_up` of `calculate_investment_advice`. -/
def isReversingUp (t : TrendResult) : Bool :=
  containsSub "反转" t.trend_description && containsSub "上升" t.short_trend &&
    decide (trendDirection t.mid_trend < 0)

/-- `is_reversing_down` of `calculate_investment_advice`. -/
def isReversingDown (t : TrendResult) : Bool :=
  containsSub "反转" t.trend_description && containsSub "下降" t.short_trend &&
    decide (0 < trendDirection t.mid_trend)

/-- Python `round` (banker's rounding, half to even) on a rational. -/
def pyRound (q : ℚ) : ℤ :=
  if q - ⌊q⌋ < 1 / 2 then ⌊q⌋
  else if 1 / 2 < q - ⌊q⌋ then ⌊q⌋ + 1
  else if ⌊q⌋ % 2 = 0 then ⌊q⌋ else ⌊q⌋ + 1

/-- The star count `max(1, min(5, round(score_display / 2)))` of
`calculate_investment_advice` (the source repeats the star glyph that many
times). -/
def starsCount (score_display : ℚ) : ℤ :=
  max 1 (min 5 (pyRound (score_display / 2)))

/-- Result dictionary of `calculate_investment_advice` (`stars` is the star
count). -/
structure AdvisoryResult where
  advice : String
  advice_emoji : String
  priority_score : ℚ
  stars : ℤ
  position_level : String
  position_score : ℚ
  trend_adjustment : ℚ
  trend_direction : ℤ
  reason : String
  action_desc : String
  confidence : String
deriving DecidableEq

/-- `calculate_investment_advice` of `app/monitor.py`. -/
def calculate_investment_advice (percentile : ℚ) (trend_analysis : TrendResult) :
    AdvisoryResult :=
  let position_level :=
    if percentile ≤ 15 then "极低位"
    else if percentile ≤ 35 then "低位"
    else if percentile ≤ 65 then "中位"
    else if percentile ≤ 85 then "高位"
    else "极高位"
  let position_score := 10 - percentile / 10
  let direction := trendDirection trend_analysis.mid_trend
  let desc := trend_analysis.trend_description
  let is_reversing_up := isReversingUp trend_analysis
  let is_reversing_down := isReversingDown trend_analysis
  let base : ℚ × String :=
    if percentile ≤ 15 then
      if direction ≤ -1 then (5.0 + |(direction : ℚ)| * 2.0, "极低位深跌，强烈买入信号")
      else if direction ≥ 1 then (4.5 + (direction : ℚ) * 1.5, "极低位反弹，强烈买入")
      else (4.0, "极低位盘整，强烈买入")
    else if percentile ≤ 35 then
      if direction ≤ -1 then (4.0 + |(direction : ℚ)| * 1.5, "低位深跌，抄底良机")
      else if direction ≥ 1 then (3.5 + (direction : ℚ) * 1.2, "低位反弹，趋势向好")
      else (3.0, "低位盘整，可逐步建仓")
    else if 65 < percentile ∧ percentile < 85 then
      if direction ≥ 1 then ((if direction = 2 then 2.5 else 2.8), "高位上涨，谨慎持有")
      else if direction ≤ -1 then
        if containsSub "反转" desc then (1.5, "高位回落但出现反转信号，观望为主")
        else (-1.0 - |(direction : ℚ)| * 0.5, "高位回落，建议减仓")
      else (1.8, "高位盘整，注意风险")
    else if percentile ≥ 85 then
      if direction ≥ 1 then (-4.0 - (direction : ℚ) * 1.0, "极高位追涨，风险极大")
      else if direction ≤ -1 then (-2.0 - |(direction : ℚ)| * 0.8, "极高位回落，及时止盈")
      else (-2.0, "极高位盘整，警惕回调")
    else
      ((direction : ℚ) * 1.0,
        if direction ≥ 1 then "中位上涨，可适量参与"
        else if direction ≤ -1 then "中位下跌，暂时观望"
        else "中位盘整，等待方向")
  let adjusted : ℚ × String :=
    if is_reversing_up then
      (base.1 + (if percentile ≤ 35 then 2.0 else if percentile ≤ 65 then 1.5 else 1.0),
        if percentile ≤ 35 then "低位止跌反弹，强烈买入"
        else if percentile ≤ 65 then "中位止跌反弹，可适量买入"
        else "高位止跌反弹，谨慎持有，可适当加仓")
    else if is_reversing_down then
      (base.1 - (if percentile ≥ 85 then 2.0 else if percentile ≥ 65 then 1.5 else 0.5),
        if percentile ≥ 85 then "极高位冲高回落，强烈卖出"
        else if percentile ≥ 65 then "高位冲高回落，建议减仓"
        else "中低位冲高回落，暂时观望")
    else base
  let final_score_internal := max 0 (min 15 (position_score + adjusted.1))
  let score_display := min 10 (final_score_internal * 10 / 15)
  let abe : String × String × String :=
    if score_display ≥ 8.5 then ("💰💰💰强烈买入", "💰💰💰", "满仓买入")
    else if score_display ≥ 7.0 then ("💰💰买入", "💰💰", "重仓买入")
    else if score_display ≥ 5.5 then ("💰建议买入", "💰", "适量买入")
    else if score_display ≥ 4.5 then ("👀观望等待", "👀", "暂时观望")
    else if score_display ≥ 3.0 then ("⚠️谨慎持有", "⚠️", "谨慎持有，可适当加仓")
    else if score_display ≥ 2.0 then ("💸建议卖出", "💸", "建议减仓")
    else if score_display ≥ 1.0 then ("💸💸卖出", "💸💸", "重仓减仓")
    else ("💸💸💸强烈卖出", "💸💸💸", "清仓离场")
  let confidence :=
    if trend_analysis.prices.length < 5 then "低"
    else if trend_analysis.prices.length < 15 then "中" else "高"
  { advice := abe.1, advice_emoji := abe.2.1, priority_score := score_display,
    stars := starsCount score_display, position_level := position_level,
    position_score := position_score, trend_adjustment := adjusted.1,
    trend_direction := direction, reason := adjusted.2,
    action_desc := abe.2.2, confidence := confidence }

/-- The cross-entity ranking of `run`: Python `sorted(..., key=priority_score,
reverse=True)`, a stable sort by descending score; entries are
(entity id, priority_score) pairs in their original dictionary order. -/
def ranking (l : List (Nat × ℚ)) : List (Nat × ℚ) :=
  l.mergeSort (fun a b => decide (b.2 ≤ a.2))

/-! Helper lemmas shared by the claim theorems. -/

/-- With fewer than 3 prices, `calculate_trend_analysis` returns the
insufficient-data sentinel record. -/
theorem trend_insufficient (prices : List ℚ) (h : prices.length < 3) :
    calculate_trend_analysis prices =
      { short_trend := "数据不足", mid_trend := "数据不足", trend_strength := 0,
        trend_description := "数据不足", short_slope := 0, mid_slope := 0,
        prices := prices } := by
  unfold calculate_trend_analysis
  rw [if_pos h]

/-- `calculate_trend_analysis` passes its input list through unchanged in the
`prices` field. -/
theorem trend_prices_eq (prices : List ℚ) :
    (calculate_trend_analysis prices).prices = prices := by
  unfold calculate_trend_analysis
  split <;> rfl

/-- The display-score shape `min 10 (clamp₀₁₅ x * 10 / 15)` always lands in
[0, 10]. -/
theorem score_display_bounds (x : ℚ) :
    0 ≤ min 10 (max 0 (min 15 x) * 10 / 15) ∧
      min 10 (max 0 (min 15 x) * 10 / 15) ≤ 10 := by
  constructor
  · refine le_min (by norm_num) ?_
    have h : (0 : ℚ) ≤ max 0 (min 15 x) := le_max_left _ _
    have := mul_nonneg h (by norm_num : (0 : ℚ) ≤ 10)
    exact div_nonneg this (by norm_num)
  · exact min_le_left _ _

/-- `pyRound` stays within half a unit of its argument. -/
theorem pyRound_bounds (q : ℚ) :
    q - 1 / 2 ≤ (pyRound q : ℚ) ∧ (pyRound q : ℚ) ≤ q + 1 / 2 := by
  have hf : (⌊q⌋ : ℚ) ≤ q := Int.floor_le q
  have hc : q < ⌊q⌋ + 1 := Int.lt_floor_add_one q
  unfold pyRound
  split_ifs with h1 h2 h3
  · constructor <;> linarith
  · constructor <;> push_cast <;> linarith
  · rw [not_lt] at h1 h2
    constructor <;> linarith
  · rw [not_lt] at h1 h2
    constructor <;> push_cast <;> linarith

/-- `pyRound` is monotone. -/
theorem pyRound_mono {q r : ℚ} (h : q ≤ r) : pyRound q ≤ pyRound r := by
  by_contra hcon
  rw [not_le] at hcon
  have h1 := (pyRound_bounds q).2
  have h2 := (pyRound_bounds r).1
  have hqr : (pyRound r : ℚ) + 1 ≤ (pyRound q : ℚ) := by exact_mod_cast hcon
  have heq : q = r := le_antisymm h (by linarith)
  subst heq
  exact lt_irrefl _ hcon

/-! Claim theorems. -/

/-- C1 counterexample: on the insufficient-data sentinel (empty history),
`calculate_investment_advice` assigns trend_direction -2, not 0 as the claim
states. -/
theorem C1_cex :
    (calculate_investment_advice 50 (calculate_trend_analysis [])).trend_direction = -2 ∧
      (calculate_investment_advice 50 (calculate_trend_analysis [])).trend_direction ≠ 0 := by
  decide

/-- C1 (amended): for every TrendResult whose mid_trend is the
insufficient-data sentinel, the direction code falls through every substring
test into the catch-all else branch, so trend_direction is -2. -/
theorem C1_direction_of_insufficient (pct : ℚ) (t : TrendResult)
    (h : t.mid_trend = "数据不足") :
    (calculate_investment_advice pct t).trend_direction = -2 := by
  have hd : (calculate_investment_advice pct t).trend_direction =
      trendDirection t.mid_trend := rfl
  rw [hd, h]
  decide

/-- C1 witness: the amended claim at a concrete input. -/
theorem C1_witness :
    (calculate_trend_analysis [3]).mid_trend = "数据不足" ∧
      (calculate_investment_advice 20 (calculate_trend_analysis [3])).trend_direction = -2 :=
  ⟨by decide, C1_direction_of_insufficient 20 (calculate_trend_analysis [3]) (by decide)⟩

/-- C2 counterexample: history [1, 2, 3] with current price 4 (a unique new
maximum) yields percentile 75, not 100 as the claim states. -/
theorem C2_cex :
    (calculate_price_analysis 4 [1, 2, 3]).percentile = 75 ∧
      (calculate_price_analysis 4 [1, 2, 3]).percentile ≠ 100 := by
  have hp : (calculate_price_analysis 4 [1, 2, 3]).percentile =
      ((List.countP (fun p => decide (p < (4 : ℚ))) ([1, 2, 3] ++ [4]) : ℕ) : ℚ) /
        ((([1, 2, 3] ++ [4] : List ℚ)).length : ℚ) * 100 := by
    unfold calculate_price_analysis
    rw [if_neg (by decide : ¬([1, 2, 3] : List ℚ) = [])]
  have hc : List.countP (fun p => decide (p < (4 : ℚ))) ([1, 2, 3] ++ [4]) = 3 := by
    decide
  rw [hp, hc]
  norm_num

/-- C2 (amended): for a non-empty history and a current price strictly above
every historical price, the percentile is `n / (n + 1) * 100` where `n` is the
history length — strictly below 100, because the current price counts itself
in the denominator but never in the strict lower count. -/
theorem C2_percentile_new_max (current : ℚ) (hist : List ℚ) (hne : hist ≠ [])
    (hmax : ∀ p ∈ hist, p < current) :
    (calculate_price_analysis current hist).percentile =
      (hist.length : ℚ) / ((hist.length : ℚ) + 1) * 100 := by
  unfold calculate_price_analysis
  rw [if_neg hne]
  have hcount : (hist ++ [current]).countP (fun p => decide (p < current)) =
      hist.length := by
    rw [List.countP_append]
    have h1 : hist.countP (fun p => decide (p < current)) = hist.length :=
      List.countP_eq_length.mpr (by intro a ha; simpa using hmax a ha)
    have h2 : [current].countP (fun p => decide (p < current)) = 0 := by simp
    omega
  dsimp only
  rw [hcount]
  rw [List.length_append, List.length_singleton]
  push_cast
  ring

/-- C2 witness: the amended claim at a concrete input. -/
theorem C2_witness :
    ([1, 2, 3] : List ℚ) ≠ [] ∧ (∀ p ∈ ([1, 2, 3] : List ℚ), p < 9) ∧
      (calculate_price_analysis 9 [1, 2, 3]).percentile =
        (([1, 2, 3] : List ℚ).length : ℚ) / ((([1, 2, 3] : List ℚ).length : ℚ) + 1) * 100 :=
  ⟨by decide, by decide, C2_percentile_new_max 9 [1, 2, 3] (by decide) (by decide)⟩

/-- C3: for percentile in [0, 100] and any TrendResult, the display score is
in [0, 10], and it equals the internal sum position_score + trend_adjustment
clamped to [0, 15] and rescaled by 10/15. -/
theorem C3_priority_score_range (percentile : ℚ) (t : TrendResult)
    (_h0 : 0 ≤ percentile) (_h1 : percentile ≤ 100) :
    (0 ≤ (calculate_investment_advice percentile t).priority_score ∧
        (calculate_investment_advice percentile t).priority_score ≤ 10) ∧
      (calculate_investment_advice percentile t).priority_score =
        min 10 (max 0 (min 15 ((calculate_investment_advice percentile t).position_score +
          (calculate_investment_advice percentile t).trend_adjustment)) * 10 / 15) :=
  ⟨score_display_bounds _, rfl⟩

/-- C3 witness: the claim at a concrete input. -/
theorem C3_witness :
    (0 : ℚ) ≤ 0 ∧ (0 : ℚ) ≤ 100 ∧
      ((0 ≤ (calculate_investment_advice 0 (calculate_trend_analysis [])).priority_score ∧
          (calculate_investment_advice 0 (calculate_trend_analysis [])).priority_score ≤ 10) ∧
        (calculate_investment_advice 0 (calculate_trend_analysis [])).priority_score =
          min 10 (max 0 (min 15 ((calculate_investment_advice 0 (calculate_trend_analysis [])).position_score +
            (calculate_investment_advice 0 (calculate_trend_analysis [])).trend_adjustment)) * 10 / 15)) :=
  ⟨by norm_num, by norm_num,
    C3_priority_score_range 0 (calculate_trend_analysis []) (by norm_num) (by norm_num)⟩

/-- C6: for every price sequence shorter than 3 points,
`calculate_trend_analysis` returns the sentinel: every directional field is
the insufficient-data label and every numeric field is 0. -/
theorem C6_sentinel (prices : List ℚ) (h : prices.length < 3) :
    (calculate_trend_analysis prices).short_trend = "数据不足" ∧
      (calculate_trend_analysis prices).mid_trend = "数据不足" ∧
      (calculate_trend_analysis prices).trend_description = "数据不足" ∧
      (calculate_trend_analysis prices).trend_strength = 0 ∧
      (calculate_trend_analysis prices).short_slope = 0 ∧
      (calculate_trend_analysis prices).mid_slope = 0 := by
  rw [trend_insufficient prices h]
  exact ⟨rfl, rfl, rfl, rfl, rfl, rfl⟩

/-- C6 witness: the claim at a concrete two-point input. -/
theorem C6_witness :
    ([1, 2] : List ℚ).length < 3 ∧
      ((calculate_trend_analysis [1, 2]).short_trend = "数据不足" ∧
        (calculate_trend_analysis [1, 2]).mid_trend = "数据不足" ∧
        (calculate_trend_analysis [1, 2]).trend_description = "数据不足" ∧
        (calculate_trend_analysis [1, 2]).trend_strength = 0 ∧
        (calculate_trend_analysis [1, 2]).short_slope = 0 ∧
        (calculate_trend_analysis [1, 2]).mid_slope = 0) :=
  ⟨by decide, C6_sentinel [1, 2] (by decide)⟩

/-- C9: the star count is always an integer in [1, 5] and is monotone
non-decreasing in the display score. -/
theorem C9_stars :
    (∀ q : ℚ, 1 ≤ starsCount q ∧ starsCount q ≤ 5) ∧
      ∀ q r : ℚ, q ≤ r → starsCount q ≤ starsCount r := by
  constructor
  · intro q
    exact ⟨le_max_left _ _, max_le (by norm_num) (min_le_left _ _)⟩
  · intro q r h
    have hm : pyRound (q / 2) ≤ pyRound (r / 2) := pyRound_mono (by linarith)
    exact max_le_max le_rfl (min_le_min le_rfl hm)

/-- C9 witness: the claim at concrete scores. -/
theorem C9_witness :
    (3 : ℚ) ≤ 7 ∧ (1 ≤ starsCount 7 ∧ starsCount 7 ≤ 5) ∧ starsCount 3 ≤ starsCount 7 :=
  ⟨by norm_num, C9_stars.1 7, C9_stars.2 3 7 (by norm_num)⟩

/-- C4 counterexample: with exactly 4 historical points (fewer than 5), the
pipeline reports medium confidence, not low as the claim states, because the
threshold is applied to the series after the current price is appended. -/
theorem C4_cex :
    (calculate_investment_advice (calculate_price_analysis 5 [1, 2, 3, 4]).percentile
        (calculate_trend_analysis ([1, 2, 3, 4] ++ [5]))).confidence = "中" ∧
      (calculate_investment_advice (calculate_price_analysis 5 [1, 2, 3, 4]).percentile
        (calculate_trend_analysis ([1, 2, 3, 4] ++ [5]))).confidence ≠ "低" := by
  decide

/-- C4 (amended): confidence is determined by the length of the series
including the appended current price — fewer than 5 total points (fewer than
4 historical) gives low, 5 to 14 total gives medium, 15 or more gives high. -/
theorem C4_confidence (cur : ℚ) (hist : List ℚ) :
    (calculate_investment_advice (calculate_price_analysis cur hist).percentile
      (calculate_trend_analysis (hist ++ [cur]))).confidence =
    if hist.length + 1 < 5 then "低"
    else if hist.length + 1 < 15 then "中" else "高" := by
  have hc : (calculate_investment_advice (calculate_price_analysis cur hist).percentile
      (calculate_trend_analysis (hist ++ [cur]))).confidence =
      if (calculate_trend_analysis (hist ++ [cur])).prices.length < 5 then "低"
      else if (calculate_trend_analysis (hist ++ [cur])).prices.length < 15 then "中"
      else "高" := rfl
  rw [hc, trend_prices_eq]
  simp

/-- Evaluation of `calculate_trend_analysis` on the concrete series
[0, 100, 1, 2, 3]: a mild-up mid trend with no reversal, used for C5. -/
theorem trend_eval_mild_up :
    calculate_trend_analysis [0, 100, 1, 2, 3] =
      { short_trend := "温和上升", mid_trend := "温和上升",
        trend_strength := 7 / 8, trend_description := "温和上升，趋势稳定",
        short_slope := 1, mid_slope := 3 / 4, prices := [0, 100, 1, 2, 3] } := by
  have hss : shortSlope [0, 100, 1, 2, 3] = 1 := by
    norm_num [shortSlope, List.drop, List.getLastD, List.headD]
  have hms : midSlope [0, 100, 1, 2, 3] = 3 / 4 := by
    norm_num [midSlope, List.drop, List.getLastD, List.headD]
  have hlmax : listMax [0, 100, 1, 2, 3] = 100 := by
    norm_num [listMax, List.foldl, max_def]
  have hlmin : listMin [0, 100, 1, 2, 3] = 0 := by
    norm_num [listMin, List.foldl, min_def]
  have hst : shortStrength [0, 100, 1, 2, 3] = 1 := by
    rw [shortStrength, hlmax, hlmin, hss]
    norm_num
  have hmt : midStrength [0, 100, 1, 2, 3] = 3 / 4 := by
    rw [midStrength, hlmax, hlmin, hms]
    norm_num
  have hgd1 : get_trend_direction 1 1 = "温和上升" := by
    norm_num [get_trend_direction]
  have hgd2 : get_trend_direction (3 / 4) (3 / 4) = "温和上升" := by
    norm_num [get_trend_direction]
  unfold calculate_trend_analysis
  rw [if_neg (by norm_num : ¬([0, 100, 1, 2, 3] : List ℚ).length < 3)]
  dsimp only
  rw [hss, hms, hst, hmt, hgd1, hgd2]
  norm_num
  decide

/-- C5 counterexample: a mild-up trend (direction code 1, no reversal) at
percentile exactly 85 is classified position_level high by step 1, yet the
adjustment taken is the extreme-high branch value -5, not the high-tier 2.8
the claim states. -/
theorem C5_cex :
    (calculate_trend_analysis [0, 100, 1, 2, 3]).mid_trend = "温和上升" ∧
      (calculate_investment_advice 85
        (calculate_trend_analysis [0, 100, 1, 2, 3])).position_level = "高位" ∧
      (calculate_investment_advice 85
        (calculate_trend_analysis [0, 100, 1, 2, 3])).trend_adjustment = -5 ∧
      (calculate_investment_advice 85
        (calculate_trend_analysis [0, 100, 1, 2, 3])).trend_adjustment ≠ 2.8 := by
  rw [trend_eval_mild_up]
  have hdir : trendDirection "温和上升" = 1 := by decide
  have hdesc : containsSub "反转" "温和上升，趋势稳定" = false := by decide
  refine ⟨rfl, ?_⟩
  unfold calculate_investment_advice isReversingUp isReversingDown
  simp only [hdir, hdesc, Bool.false_and, Bool.false_eq_true, if_false]
  norm_num

/-- C5 (amended): at percentile exactly 85 with direction code at least 1 and
no reversing-down flag, step 1 still labels the position high, but the
adjustment chain's strict `65 < percentile < 85` test fails and the
`percentile >= 85` branch fires: the adjustment is `-4.0 - direction` with
the extreme-high reason, not 2.5/2.8 with the high-tier reason. -/
theorem C5_adjustment_at_85 (t : TrendResult)
    (hd : 1 ≤ trendDirection t.mid_trend)
    (hnr : isReversingDown t = false) :
    (calculate_investment_advice 85 t).position_level = "高位" ∧
      (calculate_investment_advice 85 t).trend_adjustment =
        -4.0 - (trendDirection t.mid_trend : ℚ) * 1.0 ∧
      (calculate_investment_advice 85 t).reason = "极高位追涨，风险极大" := by
  have hru : isReversingUp t = false := by
    unfold isReversingUp
    have hneg : ¬ trendDirection t.mid_trend < 0 := by omega
    simp [hneg]
  have c1 : ¬ (85 : ℚ) ≤ 15 := by norm_num
  have c2 : ¬ (85 : ℚ) ≤ 35 := by norm_num
  have c2b : ¬ (85 : ℚ) ≤ 65 := by norm_num
  have c3 : ¬ (65 < (85 : ℚ) ∧ (85 : ℚ) < 85) := by norm_num
  have c4 : (85 : ℚ) ≥ 85 := le_refl _
  have c6 : (85 : ℚ) ≤ 85 := le_refl _
  have hd' : trendDirection t.mid_trend ≥ 1 := hd
  unfold calculate_investment_advice
  simp only [hru, hnr, Bool.false_eq_true, if_false, if_neg c1, if_neg c2, if_neg c2b,
    if_neg c3, if_pos c4, if_pos c6, if_pos hd']
  exact ⟨trivial, trivial, trivial⟩

/-- C5 witness: the amended claim at the concrete mild-up trend. -/
theorem C5_witness :
    1 ≤ trendDirection (calculate_trend_analysis [0, 100, 1, 2, 3]).mid_trend ∧
      isReversingDown (calculate_trend_analysis [0, 100, 1, 2, 3]) = false ∧
      ((calculate_investment_advice 85
          (calculate_trend_analysis [0, 100, 1, 2, 3])).position_level = "高位" ∧
        (calculate_investment_advice 85
          (calculate_trend_analysis [0, 100, 1, 2, 3])).trend_adjustment =
          -4.0 - ((trendDirection (calculate_trend_analysis [0, 100, 1, 2, 3]).mid_trend : ℚ)) * 1.0 ∧
        (calculate_investment_advice 85
          (calculate_trend_analysis [0, 100, 1, 2, 3])).reason = "极高位追涨，风险极大") :=
  ⟨by rw [trend_eval_mild_up]; decide, by rw [trend_eval_mild_up]; decide,
    C5_adjustment_at_85 (calculate_trend_analysis [0, 100, 1, 2, 3])
      (by rw [trend_eval_mild_up]; decide) (by rw [trend_eval_mild_up]; decide)⟩

/-- When the combined price range is zero, both trend strengths are zero. -/
theorem strength_flat (ps : List ℚ) (h : listMax ps - listMin ps = 0) :
    shortStrength ps = 0 ∧ midStrength ps = 0 := by
  unfold shortStrength midStrength
  rw [h]
  norm_num

/-- C7: on a flat combined series (range 0), every percentage-based field is
0 instead of a division by zero: both position percents, both trend
strengths, and hence the composite trend strength. -/
theorem C7_flat (cur : ℚ) (hist : List ℚ)
    (h : listMax (hist ++ [cur]) - listMin (hist ++ [cur]) = 0) :
    (calculate_price_analysis cur hist).from_min_percent = 0 ∧
      (calculate_price_analysis cur hist).from_max_percent = 0 ∧
      shortStrength (hist ++ [cur]) = 0 ∧
      midStrength (hist ++ [cur]) = 0 ∧
      (calculate_trend_analysis (hist ++ [cur])).trend_strength = 0 := by
  obtain ⟨hs, hm⟩ := strength_flat (hist ++ [cur]) h
  refine ⟨?_, ?_, hs, hm, ?_⟩
  · by_cases hh : hist = []
    · subst hh; rfl
    · unfold calculate_price_analysis
      rw [if_neg hh]
      dsimp only
      rw [h]
      norm_num
  · by_cases hh : hist = []
    · subst hh; rfl
    · unfold calculate_price_analysis
      rw [if_neg hh]
      dsimp only
      rw [h]
      norm_num
  · by_cases hl : (hist ++ [cur]).length < 3
    · rw [trend_insufficient _ hl]
    · unfold calculate_trend_analysis
      rw [if_neg hl]
      dsimp only
      rw [hs, hm]
      norm_num

/-- C7 witness: the claim at a concrete flat series. -/
theorem C7_witness :
    listMax ([5, 5] ++ [5]) - listMin ([5, 5] ++ [5]) = 0 ∧
      ((calculate_price_analysis 5 [5, 5]).from_min_percent = 0 ∧
        (calculate_price_analysis 5 [5, 5]).from_max_percent = 0 ∧
        shortStrength ([5, 5] ++ [5]) = 0 ∧
        midStrength ([5, 5] ++ [5]) = 0 ∧
        (calculate_trend_analysis ([5, 5] ++ [5])).trend_strength = 0) :=
  ⟨by norm_num [listMax, listMin, List.foldl],
    C7_flat 5 [5, 5] (by norm_num [listMax, listMin, List.foldl])⟩

/-- C8: the ranking is a permutation of its input, is sorted by descending
priority_score, and entries with any given score keep their original relative
order (in `run` the input is in ascending entity-id order, so ties stay in
entity-id order). -/
theorem C8_ranking_sorted_stable (l : List (Nat × ℚ)) :
    (ranking l).Perm l ∧
      (ranking l).Pairwise (fun a b => b.2 ≤ a.2) ∧
      ∀ s : ℚ, (ranking l).filter (fun x => decide (x.2 = s)) =
        l.filter (fun x => decide (x.2 = s)) := by
  have htrans : ∀ a b c : Nat × ℚ, decide (b.2 ≤ a.2) = true →
      decide (c.2 ≤ b.2) = true → decide (c.2 ≤ a.2) = true := by
    intro a b c h1 h2
    simp only [decide_eq_true_eq] at h1 h2 ⊢
    exact le_trans h2 h1
  have htotal : ∀ a b : Nat × ℚ,
      (decide (b.2 ≤ a.2) || decide (a.2 ≤ b.2)) = true := by
    intro a b
    simpa using le_total b.2 a.2
  refine ⟨List.mergeSort_perm l _, ?_, ?_⟩
  · have hp := List.sorted_mergeSort htrans htotal l
    exact hp.imp (by intro a b hab; simpa using hab)
  · intro s
    have hsub : List.Sublist (l.filter (fun x => decide (x.2 = s))) l :=
      List.filter_sublist l
    have hpw : (l.filter (fun x => decide (x.2 = s))).Pairwise
        (fun a b => decide (b.2 ≤ a.2) = true) := by
      apply List.pairwise_of_forall_mem_list
      intro a ha b hb
      have ha2 : a.2 = s := by simpa using (List.mem_filter.mp ha).2
      have hb2 : b.2 = s := by simpa using (List.mem_filter.mp hb).2
      simp [ha2, hb2]
    have h1 : List.Sublist (l.filter (fun x => decide (x.2 = s))) (ranking l) :=
      List.sublist_mergeSort htrans htotal hpw hsub
    have h2 := h1.filter (fun x => decide (x.2 = s))
    rw [List.filter_filter] at h2
    have h2' : List.Sublist (l.filter (fun x => decide (x.2 = s)))
        ((ranking l).filter (fun x => decide (x.2 = s))) := by
      simpa [Bool.and_self] using h2
    have hperm : ((ranking l).filter (fun x => decide (x.2 = s))).Perm
        (l.filter (fun x => decide (x.2 = s))) :=
      (List.mergeSort_perm l _).filter _
    exact (h2'.eq_of_length hperm.length_eq.symm).symm

/-- C10: with an empty history, the composed pipeline yields percentile 50,
the sentinel trend maps to direction -2 and mid-tier adjustment -2.0, the
display score is exactly 2.0, and the advice lands in the sell bucket
(score ≥ 2.0), not in a neutral watch bucket. -/
theorem C10_empty_history_pipeline (cur : ℚ) :
    (calculate_price_analysis cur []).percentile = 50 ∧
      (calculate_investment_advice (calculate_price_analysis cur []).percentile
        (calculate_trend_analysis [cur])).trend_direction = -2 ∧
      (calculate_investment_advice (calculate_price_analysis cur []).percentile
        (calculate_trend_analysis [cur])).trend_adjustment = -2 ∧
      (calculate_investment_advice (calculate_price_analysis cur []).percentile
        (calculate_trend_analysis [cur])).priority_score = 2 ∧
      (calculate_investment_advice (calculate_price_analysis cur []).percentile
        (calculate_trend_analysis [cur])).advice = "💸建议卖出" := by
  have hp : (calculate_price_analysis cur []).percentile = 50 := rfl
  have ht : calculate_trend_analysis [cur] =
      { short_trend := "数据不足", mid_trend := "数据不足", trend_strength := 0,
        trend_description := "数据不足", short_slope := 0, mid_slope := 0,
        prices := [cur] } := trend_insufficient _ (by simp)
  rw [hp, ht]
  have hdir : trendDirection "数据不足" = -2 := by decide
  have hru : containsSub "反转" "数据不足" = false := by decide
  constructor
  · rfl
  unfold calculate_investment_advice isReversingUp isReversingDown
  simp only [hdir, hru, Bool.false_and, Bool.false_eq_true, if_false]
  norm_num [min_def, max_def]

end WarSoul
